import Mathlib

/-!
Verification of the ASR service against its design specification.

The embedding covers the two source files:
* `src/app/models/whisper_asr.py` — the recognizer wrapper (`WhisperASR`),
  its confidence heuristic `_calculate_confidence` and duration helper
  `_get_audio_duration`;
* `src/app/main.py` — the FastAPI endpoint `transcribe_audio`, the lazy
  singleton `get_asr_model`, and the scratch-file lifecycle.

Python's dynamically typed result dictionaries are embedded as the inductive
type `PyVal`; Python expressions that can raise are embedded as `Except`
computations, and a blanket `except:` clause becomes a `match` that maps the
error case to the handler's value.  Machine floats are modelled as rationals.
-/

/-- Dynamic Python values as they flow through the service: result
dictionaries, segment lists, strings, numbers (modelled as rationals),
booleans and None. -/
inductive PyVal where
  | none
  | bool (b : Bool)
  | num (q : ℚ)
  | str (s : String)
  | list (xs : List PyVal)
  | dict (entries : List (String × PyVal))

/-- Python truthiness, as used by `if not segments:` and `if text and ...`. -/
def pyTruthy : PyVal → Bool
  | .none => false
  | .bool b => b
  | .num q => !(q == 0)
  | .str s => !(s == "")
  | .list xs => !xs.isEmpty
  | .dict es => !es.isEmpty

/-- Numeric view used by Python arithmetic: numbers and booleans are numeric,
everything else raises a TypeError when used in arithmetic. -/
def PyVal.toNum : PyVal → Option ℚ
  | .num q => some q
  | .bool b => some (if b then 1 else 0)
  | _ => Option.none

/-- Python dictionary get with default, `v.get(key, dflt)`: raises
AttributeError when `v` is not a dictionary. -/
def pyGetD (v : PyVal) (key : String) (dflt : PyVal) : Except String PyVal :=
  match v with
  | .dict es => .ok ((es.lookup key).getD dflt)
  | _ => .error "AttributeError"

/-- Python subtraction of two values. -/
def pySub (a b : PyVal) : Except String ℚ :=
  match a.toNum, b.toNum with
  | some x, some y => .ok (x - y)
  | _, _ => .error "TypeError"

/-- Python addition of a value and a numeric constant. -/
def pyAddNum (a : PyVal) (c : ℚ) : Except String ℚ :=
  match a.toNum with
  | some x => .ok (x + c)
  | _ => .error "TypeError"

/-- Python iteration, `for x in v`: lists yield their elements, strings their
characters, dictionaries their keys; other values raise a TypeError. -/
def pyIter : PyVal → Except String (List PyVal)
  | .list xs => .ok xs
  | .str s => .ok (s.data.map fun c => .str (String.mk [c]))
  | .dict es => .ok (es.map fun e => .str e.1)
  | _ => .error "TypeError"

/-- Python negative indexing, `v[-1]`. -/
def pyLast : PyVal → Except String PyVal
  | .list xs =>
    match xs.getLast? with
    | some v => .ok v
    | _ => .error "IndexError"
  | .str s =>
    match s.data.getLast? with
    | some c => .ok (.str (String.mk [c]))
    | _ => .error "IndexError"
  | .dict _ => .error "KeyError"
  | _ => .error "TypeError"

/-- Python membership test with a string key, `key in v`. -/
def pyContains (key : String) : PyVal → Except String Bool
  | .dict es => .ok (es.lookup key).isSome
  | .list xs => .ok (xs.any fun v => match v with | .str s => s == key | _ => false)
  | .str s => .ok (decide (2 ≤ (s.splitOn key).length))
  | _ => .error "TypeError"

/-- Characters of a string with leading and trailing whitespace removed, the
effect of Python str.strip(). -/
def stripChars (cs : List Char) : List Char :=
  ((cs.dropWhile Char.isWhitespace).reverse.dropWhile Char.isWhitespace).reverse

/-- Python str.strip() on a string. -/
def pyStripStr (s : String) : String := String.mk (stripChars s.data)

/-- Python string strip, `v.strip()`: raises AttributeError on non-strings. -/
def pyStrip : PyVal → Except String String
  | .str s => .ok (pyStripStr s)
  | _ => .error "AttributeError"

/-- Python str() rendering.  The service only depends on it for string
values; the rendering of nested containers is abbreviated. -/
def pyStr : PyVal → String
  | .none => "None"
  | .bool true => "True"
  | .bool false => "False"
  | .num q => toString q
  | .str s => s
  | .list _ => "[...]"
  | .dict _ => "\x7b...\x7d"

/-- Python isinstance(v, dict). -/
def PyVal.isDict : PyVal → Bool
  | .dict _ => true
  | _ => false

/-- Key lookup on a value already known to be a dictionary. -/
def dictLookup (v : PyVal) (key : String) : Option PyVal :=
  match v with
  | .dict es => es.lookup key
  | _ => Option.none

/-- Whether an embedded Python expression raised. -/
def exceptFails {α : Type} : Except String α → Bool
  | .error _ => true
  | .ok _ => false

namespace WhisperASR

/-- One iteration of the loop inside `_calculate_confidence`
(whisper_asr.py lines 145-152): fetch end, start and avg_logprob, form the
duration and the clamped score, and return (score * duration, duration). -/
def segStep (s : PyVal) : Except String (ℚ × ℚ) :=
  match pyGetD s "end" (.num 0) with
  | .error e => .error e
  | .ok ev =>
  match pyGetD s "start" (.num 0) with
  | .error e => .error e
  | .ok sv =>
  match pySub ev sv with
  | .error e => .error e
  | .ok d =>
  match pyGetD s "avg_logprob" (.num 0) with
  | .error e => .error e
  | .ok lpv =>
  match pyAddNum lpv 1 with
  | .error e => .error e
  | .ok lp1 => .ok (max 0 (min 1 (lp1 / 2)) * d, d)

/-- The accumulation loop of `_calculate_confidence`: total_confidence and
total_duration threaded through the segments, stopping at the first raised
exception exactly as the Python loop does. -/
def confLoop : List PyVal → ℚ → ℚ → Except String (ℚ × ℚ)
  | [], tc, td => .ok (tc, td)
  | s :: rest, tc, td =>
    match segStep s with
    | .error e => .error e
    | .ok p => confLoop rest (tc + p.1) (td + p.2)

/-- Body of `_calculate_confidence` (whisper_asr.py lines 136-154), before
the blanket except clause. -/
def confBody (result : PyVal) : Except String ℚ :=
  match pyGetD result "segments" (.list []) with
  | .error e => .error e
  | .ok segments =>
    if pyTruthy segments = false then .ok 0
    else
      match pyIter segments with
      | .error e => .error e
      | .ok xs =>
        match confLoop xs 0 0 with
        | .error e => .error e
        | .ok p => .ok (if 0 < p.2 then p.1 / p.2 else 0)

/-- The confidence heuristic `_calculate_confidence`: any internal exception
yields 0.0 (whisper_asr.py lines 126-157). -/
def calculate_confidence (result : PyVal) : ℚ :=
  match confBody result with
  | .ok q => q
  | .error _ => 0

/-- Body of `_get_audio_duration` (whisper_asr.py lines 169-173), before the
blanket except clause: the end timestamp of the last segment, whatever value
that key holds. -/
def durBody (result : PyVal) : Except String PyVal :=
  match pyGetD result "segments" (.list []) with
  | .error e => .error e
  | .ok segments =>
    if pyTruthy segments then
      match pyLast segments with
      | .error e => .error e
      | .ok last => pyGetD last "end" (.num 0)
    else .ok (.num 0)

/-- The duration helper `_get_audio_duration`: any internal exception yields
0.0 (whisper_asr.py lines 159-175). -/
def get_audio_duration (result : PyVal) : PyVal :=
  match durBody result with
  | .ok v => v
  | .error _ => .num 0

/-- Environment of one `WhisperASR.transcribe` call: whether the audio path
exists, and the outcome of the underlying model invocation (a raw result
dictionary, or a raised exception). -/
structure TEnv where
  pathExists : Bool
  modelRun : Except String PyVal

/-- Body of `WhisperASR.transcribe` inside the try (whisper_asr.py lines
62-111): existence check, model invocation, text extraction and stripping,
then the success dictionary, with the dictionary gets sequenced in source
order. -/
def transcribeBody (device : String) (env : TEnv) (audio_path : String) :
    Except String PyVal :=
  if env.pathExists = false then
    .error ("Audio file not found: " ++ audio_path)
  else
  match env.modelRun with
  | .error e => .error e
  | .ok result =>
  match pyGetD result "text" (.str "") with
  | .error e => .error e
  | .ok textv =>
  match pyStrip textv with
  | .error e => .error e
  | .ok transcription =>
  match pyGetD result "language" (.str "unknown") with
  | .error e => .error e
  | .ok lang =>
  match pyGetD result "segments" (.list []) with
  | .error e => .error e
  | .ok segs =>
  match pyGetD result "language" (.str "unknown") with
  | .error e => .error e
  | .ok lang2 =>
    .ok (.dict [
      ("transcription", .str transcription),
      ("language", lang),
      ("confidence", .num (calculate_confidence result)),
      ("segments", segs),
      ("processing_info", .dict [
        ("model", .str "whisper"),
        ("device", .str device),
        ("audio_duration", get_audio_duration result),
        ("detected_language", lang2)])])

/-- `WhisperASR.transcribe` (whisper_asr.py lines 52-124): the blanket
except clause turns any raised exception into an error dictionary with
confidence 0.0 instead of propagating it. -/
def transcribe (device : String) (env : TEnv) (audio_path : String) : PyVal :=
  match transcribeBody device env audio_path with
  | .ok v => v
  | .error e => .dict [
      ("transcription", .str ""),
      ("error", .str e),
      ("language", .str "unknown"),
      ("confidence", .num 0),
      ("processing_info", .dict [
        ("device", .str device),
        ("error", .str e)])]

end WhisperASR

/-- A numeric whisper segment as the spec's confidence formula describes it
(start, end and average log-probability). -/
structure Seg where
  start : ℚ
  stop : ℚ
  lp : ℚ
deriving DecidableEq

/-- A numeric segment rendered as the raw dictionary whisper returns. -/
def Seg.toPy (s : Seg) : PyVal :=
  .dict [("start", .num s.start), ("end", .num s.stop), ("avg_logprob", .num s.lp)]

/-- A raw model result carrying exactly a list of numeric segments. -/
def mkRaw (segs : List Seg) : PyVal :=
  .dict [("segments", .list (segs.map Seg.toPy))]

/-- The clamp of the spec's confidence formula. -/
def clamp01 (x : ℚ) : ℚ := max 0 (min 1 x)

/-- Per-segment score of the spec's formula. -/
def segScore (s : Seg) : ℚ := clamp01 ((s.lp + 1) / 2)

/-- Total duration of a segment list, weight of the spec's average. -/
def totalDur (segs : List Seg) : ℚ := (segs.map fun s => s.stop - s.start).sum

/-- Duration-weighted sum of per-segment scores. -/
def weightedSum (segs : List Seg) : ℚ :=
  (segs.map fun s => segScore s * (s.stop - s.start)).sum

/-- The confidence value exactly as the claim words it: the duration-weighted
average of the per-segment scores, 0 when there are no segments or the total
duration is zero. -/
def specConfidence (segs : List Seg) : ℚ :=
  if segs = [] ∨ totalDur segs = 0 then 0 else weightedSum segs / totalDur segs

/-- The amended formula: 0 whenever the total duration is not positive, which
is the guard the code actually uses. -/
def specConfidenceAmended (segs : List Seg) : ℚ :=
  if 0 < totalDur segs then weightedSum segs / totalDur segs else 0

/-- The module-global `asr_model` of main.py together with `get_asr_model`
(main.py lines 13-29): instances are identified by ids; `construct` is the
outcome `WhisperASR()` would have on this call.  A construction failure
raises HTTPException(503, ...) and leaves the global unset. -/
def get_asr_model (asr_model : Option Nat) (construct : Except String Nat) :
    Option Nat × Except (Nat × String) Nat :=
  match asr_model with
  | some m => (some m, .ok m)
  | Option.none =>
    match construct with
    | .ok m => (some m, .ok m)
    | .error e => (Option.none, .error (503, "ASR service unavailable: " ++ e))

/-- A sequence of `get_asr_model` calls from a given global state: the final
global state and how many model instances were actually constructed. -/
def runCalls : Option Nat → List (Except String Nat) → Option Nat × Nat
  | st, [] => (st, 0)
  | st, c :: cs =>
    let built : Nat :=
      match st, c with
      | Option.none, .ok _ => 1
      | _, _ => 0
    let rest := runCalls (get_asr_model st c).1 cs
    (rest.1, built + rest.2)

/-- One request to the transcribe endpoint: the upload's filename, raw
content bytes and declared content type, plus the optional reference text
form field. -/
structure Request where
  filename : String
  content : List Nat
  content_type : Option String
  text : Option String

/-- Environment of one endpoint call: the outcome `get_asr_model` would have
if invoked, the outcome of the recognizer's transcribe if invoked, and
whether `os.remove` succeeds. -/
structure Env where
  constructOk : Except String Unit
  recognize : Except String PyVal
  removeOk : Bool

/-- The endpoint's primary result: a 200 body, or an HTTPException. -/
inductive Response where
  | ok (body : PyVal)
  | httpError (status : Nat) (detail : String)

/-- Exceptions inside the try block of `transcribe_audio`: HTTPExceptions
pass through unchanged, anything else is wrapped into a generic 500. -/
inductive Exc where
  | http (status : Nat) (detail : String)
  | generic (msg : String)

/-- The scratch path, main.py line 69: temp_ followed by the caller-supplied
filename. -/
def tempPathOf (r : Request) : String := "temp_" ++ r.filename

/-- Truthiness of the python guard text and text.strip() (main.py line 80). -/
def useRefText : Option String → Bool
  | Option.none => false
  | some t => (!(t == "")) && (!(pyStripStr t == ""))

/-- The reference-text response body (main.py lines 82-88). -/
def refBody (t : String) : PyVal := .dict [
  ("transcription", .str (pyStripStr t)),
  ("source", .str "reference_text"),
  ("language", .str "unknown"),
  ("confidence", .num 1),
  ("message", .str "Using provided reference text")]

/-- The model-path response body for a dictionary result, with the
documented defaults for missing keys (main.py lines 105-112). -/
def modelBody (result : PyVal) : PyVal := .dict [
  ("transcription", (dictLookup result "transcription").getD (.str "")),
  ("source", .str "asr_model"),
  ("language", (dictLookup result "language").getD (.str "unknown")),
  ("confidence", (dictLookup result "confidence").getD (.num 0)),
  ("segments", (dictLookup result "segments").getD (.list [])),
  ("processing_info", (dictLookup result "processing_info").getD (.dict []))]

/-- The fallback response body for a non-dictionary result (main.py lines
114-119); unreachable in practice because the logging get on line 97 already
raises for non-dictionaries. -/
def strBody (result : PyVal) : PyVal := .dict [
  ("transcription", .str (pyStr result)),
  ("source", .str "asr_model"),
  ("language", .str "unknown"),
  ("confidence", .num 0)]

/-- Main.py lines 97-119: the logging get on the result, the error-marker
check raising HTTPException(500, ...), and the response shaping. -/
def afterModel (result : PyVal) : Except Exc PyVal :=
  match pyGetD result "transcription" (.str "No transcription") with
  | .error e => .error (.generic e)
  | .ok _ =>
  match pyContains "error" result with
  | .error e => .error (.generic e)
  | .ok hasErr =>
  if hasErr then
    .error (.http 500
      ("Transcription error: " ++ pyStr ((dictLookup result "error").getD PyVal.none)))
  else if result.isDict then .ok (modelBody result)
  else .ok (strBody result)

/-- The try block of `transcribe_audio` (main.py lines 71-119): its outcome,
plus whether the recognizer's transcribe was invoked.  The empty-upload check
precedes the reference-text check, which precedes model construction. -/
def tryBody (req : Request) (env : Env) : Except Exc PyVal × Bool :=
  if req.content.length = 0 then
    (.error (.http 400 "Empty audio file"), false)
  else if useRefText req.text then
    (.ok (refBody ((req.text).getD "")), false)
  else
    match env.constructOk with
    | .error e => (.error (.http 503 ("ASR service unavailable: " ++ e)), false)
    | .ok _ =>
      match env.recognize with
      | .error e => (.error (.generic e), true)
      | .ok result => (afterModel result, true)

/-- The scratch-file state: the set of existing paths. -/
abbrev FS := List String

/-- Opening a path for writing creates the file. -/
def fsWrite (fs : FS) (p : String) : FS := if p ∈ fs then fs else p :: fs

/-- A successful `os.remove`. -/
def fsRemoveAll (fs : FS) (p : String) : FS := fs.filter fun q => !(q == p)

/-- The endpoint `transcribe_audio` (main.py lines 50-133): primary response
(after the two except clauses), final scratch-file state (after the finally
clause, where a failing `os.remove` only logs), and whether the recognizer
was invoked. -/
def transcribe_audio (req : Request) (env : Env) (fs : FS) :
    Response × FS × Bool :=
  let temp_path := tempPathOf req
  let fs1 := fsWrite fs temp_path
  let outcome := tryBody req env
  let primary : Response :=
    match outcome.1 with
    | .ok body => .ok body
    | .error (.http s d) => .httpError s d
    | .error (.generic m) => .httpError 500 ("Internal server error: " ++ m)
  let fs2 := if temp_path ∈ fs1 then
      (if env.removeOk then fsRemoveAll fs1 temp_path else fs1)
    else fs1
  (primary, fs2, outcome.2)

/-- A segment entry whose processing either raises or yields a nonnegative
duration. -/
def segDurOk (s : PyVal) : Bool :=
  match WhisperASR.segStep s with
  | .ok p => decide (0 ≤ p.2)
  | .error _ => true

/-- Every segment entry a raw result carries is either malformed or has a
nonnegative duration. -/
def segEntriesOk (r : PyVal) : Bool :=
  match pyGetD r "segments" (.list []) with
  | .error _ => true
  | .ok segs =>
    match pyIter segs with
    | .error _ => true
    | .ok xs => xs.all segDurOk

/-- A numeric segment steps to its clamped score weighted by its duration. -/
theorem segStep_toPy (s : Seg) :
    WhisperASR.segStep s.toPy
      = .ok (segScore s * (s.stop - s.start), s.stop - s.start) := rfl

/-- The accumulation loop on numeric segments adds the weighted sum and the
total duration to the accumulators. -/
theorem confLoop_toPy (segs : List Seg) : ∀ tc td,
    WhisperASR.confLoop (segs.map Seg.toPy) tc td
      = .ok (tc + weightedSum segs, td + totalDur segs) := by
  induction segs with
  | nil => intro tc td; simp [WhisperASR.confLoop, weightedSum, totalDur]
  | cons s rest ih =>
    intro tc td
    simp only [List.map_cons, WhisperASR.confLoop, segStep_toPy, ih]
    simp [weightedSum, totalDur, add_assoc]

/-- On numeric segments the code computes exactly the amended formula. -/
theorem calc_mkRaw (segs : List Seg) :
    WhisperASR.calculate_confidence (mkRaw segs) = specConfidenceAmended segs := by
  cases segs with
  | nil => rfl
  | cons s rest =>
    have h0 : WhisperASR.confBody (mkRaw (s :: rest))
        = match WhisperASR.confLoop ((s :: rest).map Seg.toPy) 0 0 with
          | .error e => .error e
          | .ok p => .ok (if 0 < p.2 then p.1 / p.2 else 0) := rfl
    have h : WhisperASR.confBody (mkRaw (s :: rest))
        = .ok (if 0 < totalDur (s :: rest)
              then weightedSum (s :: rest) / totalDur (s :: rest) else 0) := by
      rw [h0, confLoop_toPy]
      simp
    simp [WhisperASR.calculate_confidence, h, specConfidenceAmended]

/-- A successful segment step has the shape clamped score times duration. -/
theorem segStep_ok_shape {s : PyVal} {p : ℚ × ℚ}
    (h : WhisperASR.segStep s = .ok p) :
    ∃ c, 0 ≤ c ∧ c ≤ 1 ∧ p.1 = c * p.2 := by
  unfold WhisperASR.segStep at h
  repeat' split at h
  all_goals cases h
  exact ⟨_, le_max_left _ _, max_le (by norm_num) (min_le_left _ _), rfl⟩

/-- The loop invariant behind the range of the confidence heuristic: when
every surviving segment has nonnegative duration, total confidence stays
between 0 and total duration. -/
theorem confLoop_bounds :
    ∀ (xs : List PyVal) (tc td a b : ℚ),
      (∀ s ∈ xs, segDurOk s = true) →
      WhisperASR.confLoop xs tc td = .ok (a, b) →
      0 ≤ tc → tc ≤ td → 0 ≤ a ∧ a ≤ b := by
  intro xs
  induction xs with
  | nil =>
    intro tc td a b _ h h0 h1
    simp [WhisperASR.confLoop] at h
    obtain ⟨ha, hb⟩ := h
    subst ha; subst hb
    exact ⟨h0, h1⟩
  | cons x rest ih =>
    intro tc td a b hall h h0 h1
    rcases hx : WhisperASR.segStep x with e | p
    · simp only [WhisperASR.confLoop, hx] at h
      cases h
    · simp only [WhisperASR.confLoop, hx] at h
      have hd : 0 ≤ p.2 := by
        have hm := hall x (List.mem_cons_self _ _)
        unfold segDurOk at hm
        rw [hx] at hm
        simpa using hm
      obtain ⟨c, hc0, hc1, hcd⟩ := segStep_ok_shape hx
      have hp0 : 0 ≤ p.1 := by rw [hcd]; exact mul_nonneg hc0 hd
      have hp2 : p.1 ≤ p.2 := by rw [hcd]; exact mul_le_of_le_one_left hd hc1
      exact ih (tc + p.1) (td + p.2) a b
        (fun s hs => hall s (List.mem_cons_of_mem _ hs)) h
        (add_nonneg h0 hp0) (add_le_add h1 hp2)

/-- A malformed member makes the whole accumulation loop raise. -/
theorem confLoop_member_error :
    ∀ (xs : List PyVal) (tc td : ℚ) (s : PyVal), s ∈ xs →
      exceptFails (WhisperASR.segStep s) = true →
      ∃ e, WhisperASR.confLoop xs tc td = .error e := by
  intro xs
  induction xs with
  | nil => intro tc td s hs _; exact absurd hs (List.not_mem_nil s)
  | cons x rest ih =>
    intro tc td s hs hf
    rcases hx : WhisperASR.segStep x with e | p
    · exact ⟨e, by simp only [WhisperASR.confLoop, hx]⟩
    · rcases List.mem_cons.mp hs with h | h
      · subst h
        rw [hx] at hf
        exact absurd hf (by simp [exceptFails])
      · obtain ⟨e, he⟩ := ih (tc + p.1) (td + p.2) s h hf
        exact ⟨e, by simp only [WhisperASR.confLoop, hx, he]⟩

/-- From a ready state the singleton machine never constructs again and every
later call returns the same instance. -/
theorem runCalls_ready (m : Nat) : ∀ cs, runCalls (some m) cs = (some m, 0) := by
  intro cs
  induction cs with
  | nil => rfl
  | cons c cs ih => simp [runCalls, get_asr_model, ih]

/-- C9: the lazily initialized recognizer is a two-state machine: a ready
call always returns the stored instance unchanged, a failed construction
leaves the global unset (so the next call retries), a successful
construction stores the instance, at most one instance is ever constructed
over any call sequence from the uninitialized state, and from the ready
state no further instance is ever constructed. -/
theorem C9_singleton_state_machine :
    (∀ m c, get_asr_model (some m) c = (some m, .ok m))
  ∧ (∀ e, get_asr_model Option.none (.error e)
        = (Option.none, .error (503, "ASR service unavailable: " ++ e)))
  ∧ (∀ m, get_asr_model Option.none (.ok m) = (some m, .ok m))
  ∧ (∀ cs, (runCalls Option.none cs).2 ≤ 1)
  ∧ (∀ m cs, runCalls (some m) cs = (some m, 0)) := by
  refine ⟨fun m c => rfl, fun e => rfl, fun m => rfl, ?_, fun m cs => runCalls_ready m cs⟩
  intro cs
  induction cs with
  | nil => simp [runCalls]
  | cons c cs ih =>
    cases c with
    | ok m => simp [runCalls, get_asr_model, runCalls_ready m cs]
    | error e => simpa [runCalls, get_asr_model] using ih

/-- C2: a request whose upload reads as zero bytes always fails with a 400
Empty audio file error, whatever the other fields hold (in particular even
with a non-blank reference text), and the recognizer is not invoked. -/
theorem C2_empty_upload_400 (req : Request) (env : Env) (fs : FS)
    (h : req.content = []) :
    (transcribe_audio req env fs).1 = .httpError 400 "Empty audio file" ∧
    (transcribe_audio req env fs).2.2 = false := by
  simp [transcribe_audio, tryBody, h]

/-- Witness for C2 at a concrete empty-upload request carrying a non-blank
reference text. -/
theorem C2_witness :
    (transcribe_audio ⟨"a.wav", [], Option.none, some "hello"⟩
        ⟨.ok (), .ok (.dict []), true⟩ []).1 = .httpError 400 "Empty audio file" ∧
    (transcribe_audio ⟨"a.wav", [], Option.none, some "hello"⟩
        ⟨.ok (), .ok (.dict []), true⟩ []).2.2 = false :=
  C2_empty_upload_400 _ _ _ rfl

/-- Counterexample to C1 as stated: with a non-blank reference text but an
empty upload the endpoint raises 400 instead of returning the reference
text, so the short-circuit does not hold regardless of upload content. -/
theorem C1_counterexample :
    (transcribe_audio ⟨"a.wav", [], Option.none, some "hello"⟩
        ⟨.ok (), .ok (.dict []), true⟩ []).1 = .httpError 400 "Empty audio file" ∧
    (transcribe_audio ⟨"a.wav", [], Option.none, some "hello"⟩
        ⟨.ok (), .ok (.dict []), true⟩ []).1 ≠ .ok (refBody "hello") := by
  refine ⟨rfl, ?_⟩
  intro h
  exact Response.noConfusion h

/-- C1 (amended): for every request whose upload is non-empty and whose text
field is non-blank after trimming, the endpoint returns exactly the trimmed
text with source reference_text, confidence 1.0 and language unknown, and
the recognizer's transcribe is never invoked. -/
theorem C1_reference_text_short_circuit (req : Request) (env : Env) (fs : FS)
    (t : String) (hc : req.content ≠ []) (ht : req.text = some t)
    (hb : pyStripStr t ≠ "") :
    (transcribe_audio req env fs).1 = .ok (refBody t) ∧
    dictLookup (refBody t) "transcription" = some (.str (pyStripStr t)) ∧
    dictLookup (refBody t) "source" = some (.str "reference_text") ∧
    dictLookup (refBody t) "confidence" = some (.num 1) ∧
    dictLookup (refBody t) "language" = some (.str "unknown") ∧
    (transcribe_audio req env fs).2.2 = false := by
  have hne : t ≠ "" := by
    intro h
    rw [h] at hb
    exact hb (by decide)
  have hlen : req.content.length ≠ 0 := by
    simpa [List.length_eq_zero] using hc
  refine ⟨?_, rfl, rfl, rfl, rfl, ?_⟩ <;>
    simp [transcribe_audio, tryBody, ht, useRefText, hlen, hne, hb]

/-- Witness for the amended C1 at a concrete request with padded reference
text and a non-empty upload. -/
theorem C1_witness :
    (transcribe_audio ⟨"a.wav", [1], Option.none, some " hi "⟩
        ⟨.ok (), .ok (.dict []), true⟩ []).1 = .ok (refBody " hi ") ∧
    (transcribe_audio ⟨"a.wav", [1], Option.none, some " hi "⟩
        ⟨.ok (), .ok (.dict []), true⟩ []).2.2 = false := by
  have h := C1_reference_text_short_circuit
    ⟨"a.wav", [1], Option.none, some " hi "⟩
    ⟨.ok (), .ok (.dict []), true⟩ [] " hi " (by decide) rfl (by decide)
  exact ⟨h.1, h.2.2.2.2.2⟩

/-- C8: the scratch path is derived from the caller-supplied filename alone,
so two distinct requests carrying the same filename collide on the same
scratch path; the spec itself flags this as a latent bug against the
intended per-request uniqueness. -/
theorem C8_scratch_path_collision :
    (⟨"a.wav", [0], Option.none, Option.none⟩ : Request)
        ≠ (⟨"a.wav", [1], Option.none, Option.none⟩ : Request) ∧
    tempPathOf ⟨"a.wav", [0], Option.none, Option.none⟩
        = tempPathOf ⟨"a.wav", [1], Option.none, Option.none⟩ := by
  constructor
  · intro h
    have h2 := congrArg Request.content h
    simp at h2
  · rfl

/-- The file just written is in the scratch state. -/
theorem mem_fsWrite (fs : FS) (p : String) : p ∈ fsWrite fs p := by
  unfold fsWrite
  split
  · assumption
  · exact List.mem_cons_self _ _

/-- A removed path is gone from the scratch state. -/
theorem not_mem_fsRemoveAll (fs : FS) (p : String) : p ∉ fsRemoveAll fs p := by
  unfold fsRemoveAll
  simp [List.mem_filter]

/-- C3: when removal succeeds the scratch file does not exist after the call
on every exit path, and the outcome of the removal (success or logged
failure) never changes the primary result nor whether the recognizer ran. -/
theorem C3_scratch_cleanup (req : Request) (env : Env) (fs : FS) :
    (env.removeOk = true → tempPathOf req ∉ (transcribe_audio req env fs).2.1) ∧
    (∀ c r b₁ b₂,
      (transcribe_audio req ⟨c, r, b₁⟩ fs).1 = (transcribe_audio req ⟨c, r, b₂⟩ fs).1 ∧
      (transcribe_audio req ⟨c, r, b₁⟩ fs).2.2
        = (transcribe_audio req ⟨c, r, b₂⟩ fs).2.2) := by
  constructor
  · intro hrm
    have h1 : tempPathOf req ∈ fsWrite fs (tempPathOf req) := mem_fsWrite fs _
    simp only [transcribe_audio, hrm, if_true, if_pos h1]
    exact not_mem_fsRemoveAll _ _
  · intro c r b₁ b₂
    exact ⟨rfl, rfl⟩

/-- Witness for C3 at a concrete request that reaches the recognizer. -/
theorem C3_witness :
    tempPathOf ⟨"a.wav", [1], Option.none, Option.none⟩
      ∉ (transcribe_audio ⟨"a.wav", [1], Option.none, Option.none⟩
          ⟨.ok (), .ok (.dict []), true⟩ []).2.1 :=
  (C3_scratch_cleanup _ _ _).1 rfl

/-- C6: whenever the recognizer's result dictionary carries an error key, the
endpoint raises HTTPException 500 with a Transcription error detail built
from that value, and never returns the partial result data. -/
theorem C6_error_marker_500 (req : Request) (b : Bool) (fs : FS)
    (es : List (String × PyVal)) (v : PyVal)
    (hc : req.content ≠ []) (ht : useRefText req.text = false)
    (hv : es.lookup "error" = some v) :
    (transcribe_audio req ⟨.ok (), .ok (.dict es), b⟩ fs).1
      = .httpError 500 ("Transcription error: " ++ pyStr v) := by
  have hlen : req.content.length ≠ 0 := by
    simpa [List.length_eq_zero] using hc
  simp [transcribe_audio, tryBody, hlen, ht, afterModel, pyGetD, pyContains,
    dictLookup, hv]

/-- Witness for C6 at a concrete error-marked recognizer result. -/
theorem C6_witness :
    (transcribe_audio ⟨"a.wav", [1], Option.none, Option.none⟩
        ⟨.ok (), .ok (.dict [("error", .str "boom")]), true⟩ []).1
      = .httpError 500 "Transcription error: boom" :=
  C6_error_marker_500 ⟨"a.wav", [1], Option.none, Option.none⟩ true []
    [("error", .str "boom")] (.str "boom") (by decide) rfl rfl

/-- C5: on an internal failure — a path that does not exist, or a raised
model exception — the wrapper's transcribe returns (never raises, by its
type) a dictionary carrying an error field and confidence 0.0. -/
theorem C5_wrapper_error_result (device : String) (env : WhisperASR.TEnv)
    (p : String)
    (h : env.pathExists = false ∨ ∃ e, env.modelRun = Except.error e) :
    (∃ e, dictLookup (WhisperASR.transcribe device env p) "error"
        = some (.str e)) ∧
    dictLookup (WhisperASR.transcribe device env p) "confidence"
        = some (.num 0) := by
  rcases h with h | ⟨e, h⟩
  · have hbody : WhisperASR.transcribeBody device env p
        = .error ("Audio file not found: " ++ p) := by
      unfold WhisperASR.transcribeBody
      rw [if_pos h]
    have : WhisperASR.transcribe device env p
        = .dict [
          ("transcription", .str ""),
          ("error", .str ("Audio file not found: " ++ p)),
          ("language", .str "unknown"),
          ("confidence", .num 0),
          ("processing_info", .dict [
            ("device", .str device),
            ("error", .str ("Audio file not found: " ++ p))])] := by
      unfold WhisperASR.transcribe
      rw [hbody]
    rw [this]
    exact ⟨⟨"Audio file not found: " ++ p, rfl⟩, rfl⟩
  · by_cases hpe : env.pathExists = false
    · have hbody : WhisperASR.transcribeBody device env p
          = .error ("Audio file not found: " ++ p) := by
        unfold WhisperASR.transcribeBody
        rw [if_pos hpe]
      have : WhisperASR.transcribe device env p
          = .dict [
            ("transcription", .str ""),
            ("error", .str ("Audio file not found: " ++ p)),
            ("language", .str "unknown"),
            ("confidence", .num 0),
            ("processing_info", .dict [
              ("device", .str device),
              ("error", .str ("Audio file not found: " ++ p))])] := by
        unfold WhisperASR.transcribe
        rw [hbody]
      rw [this]
      exact ⟨⟨"Audio file not found: " ++ p, rfl⟩, rfl⟩
    · have hbody : WhisperASR.transcribeBody device env p = .error e := by
        unfold WhisperASR.transcribeBody
        rw [if_neg hpe, h]
      have : WhisperASR.transcribe device env p
          = .dict [
            ("transcription", .str ""),
            ("error", .str e),
            ("language", .str "unknown"),
            ("confidence", .num 0),
            ("processing_info", .dict [
              ("device", .str device),
              ("error", .str e)])] := by
        unfold WhisperASR.transcribe
        rw [hbody]
      rw [this]
      exact ⟨⟨e, rfl⟩, rfl⟩

/-- Witness for C5 at a missing audio path. -/
theorem C5_witness :
    (∃ e, dictLookup
        (WhisperASR.transcribe "cpu" ⟨false, .ok (.dict [])⟩ "missing.wav")
        "error" = some (.str e)) ∧
    dictLookup (WhisperASR.transcribe "cpu" ⟨false, .ok (.dict [])⟩ "missing.wav")
        "confidence" = some (.num 0) :=
  C5_wrapper_error_result "cpu" ⟨false, .ok (.dict [])⟩ "missing.wav" (Or.inl rfl)

/-- Counterexample to C4 as stated: a single segment whose end precedes its
start has total duration -2, which is neither no segments nor zero total
duration, yet the code returns 0 while the claimed weighted average is 1. -/
theorem C4_counterexample :
    WhisperASR.calculate_confidence (mkRaw [⟨2, 0, 1⟩]) = 0 ∧
    specConfidence [⟨2, 0, 1⟩] = 1 ∧
    (0 : ℚ) ≠ 1 := by
  have ht : totalDur [(⟨2, 0, 1⟩ : Seg)] = -2 := by
    norm_num [totalDur]
  have hw : weightedSum [(⟨2, 0, 1⟩ : Seg)] = -2 := by
    norm_num [weightedSum, segScore, clamp01]
  refine ⟨?_, ?_, by norm_num⟩
  · rw [calc_mkRaw]
    unfold specConfidenceAmended
    rw [if_neg]
    rw [ht]
    norm_num
  · unfold specConfidence
    rw [if_neg]
    · rw [ht, hw]
      norm_num
    · push_neg
      refine ⟨by simp, ?_⟩
      rw [ht]
      norm_num

/-- C4 (amended): the wrapper's confidence equals the duration-weighted
average of the clamped per-segment scores whenever the total duration is
positive, and is 0.0 when there are no segments or the total duration is
not positive; on the two-segment example it evaluates to 1/2. -/
theorem C4_confidence_formula :
    (∀ segs : List Seg,
        WhisperASR.calculate_confidence (mkRaw segs) = specConfidenceAmended segs)
  ∧ WhisperASR.calculate_confidence (mkRaw [⟨0, 2, -1⟩, ⟨2, 4, 1⟩]) = 1 / 2 := by
  refine ⟨fun segs => calc_mkRaw segs, ?_⟩
  have ht : totalDur [(⟨0, 2, -1⟩ : Seg), ⟨2, 4, 1⟩] = 4 := by
    norm_num [totalDur]
  have hw : weightedSum [(⟨0, 2, -1⟩ : Seg), ⟨2, 4, 1⟩] = 2 := by
    norm_num [weightedSum, segScore, clamp01]
  rw [calc_mkRaw]
  unfold specConfidenceAmended
  rw [if_pos]
  · rw [ht, hw]
    norm_num
  · rw [ht]
    norm_num

/-- A successful wrapper body call consumed a raw model result and reports
that result's heuristic confidence. -/
theorem transcribeBody_ok_shape {device : String} {env : WhisperASR.TEnv}
    {p : String} {v : PyVal}
    (h : WhisperASR.transcribeBody device env p = .ok v) :
    ∃ raw, env.modelRun = .ok raw ∧
      dictLookup v "confidence"
        = some (.num (WhisperASR.calculate_confidence raw)) := by
  unfold WhisperASR.transcribeBody at h
  by_cases hpe : env.pathExists = false
  · rw [if_pos hpe] at h
    cases h
  · rw [if_neg hpe] at h
    rcases hm : env.modelRun with e | raw <;> simp only [hm] at h
    · cases h
    refine ⟨raw, rfl, ?_⟩
    rcases h1 : pyGetD raw "text" (.str "") with e1 | tv <;> simp only [h1] at h
    · cases h
    rcases h2 : pyStrip tv with e2 | ts <;> simp only [h2] at h
    · cases h
    rcases h3 : pyGetD raw "language" (.str "unknown") with e3 | lang <;>
      simp only [h3] at h
    · cases h
    rcases h4 : pyGetD raw "segments" (.list []) with e4 | segs <;>
      simp only [h4] at h
    · cases h
    cases h
    rfl

/-- Counterexample to C7 as stated: with a segment whose end precedes its
start the heuristic produces confidence -2, which the wrapper result carries
verbatim, and -2 lies outside the unit interval. -/
theorem C7_counterexample :
    WhisperASR.calculate_confidence (mkRaw [⟨0, 3, -1⟩, ⟨2, 0, 1⟩]) = -2 ∧
    dictLookup (WhisperASR.transcribe "cpu"
        ⟨true, .ok (mkRaw [⟨0, 3, -1⟩, ⟨2, 0, 1⟩])⟩ "a.wav") "confidence"
      = some (.num (WhisperASR.calculate_confidence
          (mkRaw [⟨0, 3, -1⟩, ⟨2, 0, 1⟩]))) ∧
    ¬ (0 : ℚ) ≤ -2 := by
  have ht : totalDur [(⟨0, 3, -1⟩ : Seg), ⟨2, 0, 1⟩] = 1 := by
    norm_num [totalDur]
  have hw : weightedSum [(⟨0, 3, -1⟩ : Seg), ⟨2, 0, 1⟩] = -2 := by
    norm_num [weightedSum, segScore, clamp01]
  refine ⟨?_, rfl, by norm_num⟩
  rw [calc_mkRaw]
  unfold specConfidenceAmended
  rw [if_pos]
  · rw [ht, hw]
    norm_num
  · rw [ht]
    norm_num

/-- C7 (amended): every confidence the system produces lies in the unit
interval provided no successfully processed segment has negative duration:
the heuristic stays within the interval under that proviso, the
reference-text path pins confidence to 1.0, the wrapper result (success or
error dictionary) carries a confidence in the interval under the same
proviso on the raw result, and the endpoint defaults a missing confidence to
0.0; with a segment whose end precedes its start the heuristic can leave the
interval. -/
theorem C7_confidence_range :
    (∀ r : PyVal, segEntriesOk r = true →
        0 ≤ WhisperASR.calculate_confidence r ∧
        WhisperASR.calculate_confidence r ≤ 1)
  ∧ (∀ t : String, dictLookup (refBody t) "confidence" = some (.num 1))
  ∧ (∀ device env p,
        (∀ raw, env.modelRun = Except.ok raw → segEntriesOk raw = true) →
        ∃ q, dictLookup (WhisperASR.transcribe device env p) "confidence"
            = some (.num q) ∧ 0 ≤ q ∧ q ≤ 1)
  ∧ (∀ result, dictLookup result "confidence" = Option.none →
        dictLookup (modelBody result) "confidence" = some (.num 0)) := by
  have main : ∀ r : PyVal, segEntriesOk r = true →
      0 ≤ WhisperASR.calculate_confidence r ∧
      WhisperASR.calculate_confidence r ≤ 1 := by
    intro r hr
    rcases hb : WhisperASR.confBody r with e | q
    · have hz : WhisperASR.calculate_confidence r = 0 := by
        unfold WhisperASR.calculate_confidence
        rw [hb]
      rw [hz]
      norm_num
    · have hq : WhisperASR.calculate_confidence r = q := by
        unfold WhisperASR.calculate_confidence
        rw [hb]
      rw [hq]
      unfold WhisperASR.confBody at hb
      unfold segEntriesOk at hr
      rcases h1 : pyGetD r "segments" (.list []) with e1 | segs <;>
        simp only [h1] at hb hr
      · cases hb
      by_cases h2 : pyTruthy segs = false
      · rw [if_pos h2] at hb
        cases hb
        norm_num
      · rw [if_neg h2] at hb
        rcases h3 : pyIter segs with e3 | xs <;> simp only [h3] at hb hr
        · cases hb
        rcases h4 : WhisperASR.confLoop xs 0 0 with e4 | pr <;>
          simp only [h4] at hb
        · cases hb
        cases hb
        have hall : ∀ s ∈ xs, segDurOk s = true := by
          intro s hs
          exact List.all_eq_true.mp hr s hs
        have hbd := confLoop_bounds xs 0 0 pr.1 pr.2 hall h4 le_rfl le_rfl
        by_cases h5 : 0 < pr.2
        · rw [if_pos h5]
          exact ⟨div_nonneg hbd.1 (le_of_lt h5), (div_le_one h5).mpr hbd.2⟩
        · rw [if_neg h5]
          norm_num
  refine ⟨main, fun t => rfl, ?_, ?_⟩
  · intro device env p hseg
    rcases htb : WhisperASR.transcribeBody device env p with e | v
    · have herr : WhisperASR.transcribe device env p
          = .dict [
            ("transcription", .str ""),
            ("error", .str e),
            ("language", .str "unknown"),
            ("confidence", .num 0),
            ("processing_info", .dict [
              ("device", .str device),
              ("error", .str e)])] := by
        unfold WhisperASR.transcribe
        rw [htb]
      rw [herr]
      exact ⟨0, rfl, le_rfl, by norm_num⟩
    · obtain ⟨raw, hm, hconf⟩ := transcribeBody_ok_shape htb
      have hv : WhisperASR.transcribe device env p = v := by
        unfold WhisperASR.transcribe
        rw [htb]
      rw [hv]
      exact ⟨WhisperASR.calculate_confidence raw, hconf, main raw (hseg raw hm)⟩
  · intro result h
    have hc : dictLookup (modelBody result) "confidence"
        = some ((dictLookup result "confidence").getD (.num 0)) := rfl
    rw [hc, h]
    rfl

/-- Witness for the amended C7 at an empty segment list. -/
theorem C7_witness :
    0 ≤ WhisperASR.calculate_confidence (mkRaw []) ∧
    WhisperASR.calculate_confidence (mkRaw []) ≤ 1 :=
  C7_confidence_range.1 (mkRaw []) rfl

/-- Counterexample to C10 as stated: a result whose segments list holds a
malformed first entry and a well-formed last entry gives confidence 0.0 but
audio duration 5, not 0.0 — the duration helper inspects only the last
entry — while the wrapper still reports success (no error field). -/
theorem C10_counterexample :
    WhisperASR.calculate_confidence
        (.dict [("segments", .list [.str "bad", .dict [("end", .num 5)]])]) = 0 ∧
    WhisperASR.get_audio_duration
        (.dict [("segments", .list [.str "bad", .dict [("end", .num 5)]])])
      = .num 5 ∧
    dictLookup (WhisperASR.transcribe "cpu"
        ⟨true, .ok (.dict [("segments", .list [.str "bad", .dict [("end", .num 5)]])])⟩
        "p") "error" = Option.none ∧
    PyVal.num 5 ≠ PyVal.num 0 := by
  refine ⟨rfl, rfl, rfl, ?_⟩
  intro h
  injection h with h2
  norm_num at h2

/-- C10 (amended): the helpers catch every internal exception and return 0.0
instead of raising; over any result dictionary, a malformed entry anywhere
in the segments list forces confidence 0.0, a malformed last entry forces
audio duration 0.0 (the duration helper inspects only the last entry), and a
result whose text field is a string still yields a wrapper success
dictionary with no error field carrying exactly the heuristic confidence. -/
theorem C10_helper_containment (entries : List (String × PyVal))
    (xs : List PyVal) (device p : String)
    (hseg : entries.lookup "segments" = some (.list xs)) :
    ((∃ s ∈ xs, exceptFails (WhisperASR.segStep s) = true) →
        WhisperASR.calculate_confidence (.dict entries) = 0)
  ∧ (∀ v, xs.getLast? = some v →
        exceptFails (pyGetD v "end" (.num 0)) = true →
        WhisperASR.get_audio_duration (.dict entries) = .num 0)
  ∧ (∀ t, entries.lookup "text" = some (.str t) →
        dictLookup (WhisperASR.transcribe device ⟨true, .ok (.dict entries)⟩ p)
            "error" = Option.none
        ∧ dictLookup (WhisperASR.transcribe device ⟨true, .ok (.dict entries)⟩ p)
            "confidence"
          = some (.num (WhisperASR.calculate_confidence (.dict entries)))) := by
  refine ⟨?_, ?_, ?_⟩
  · rintro ⟨s, hs, hf⟩
    obtain ⟨e, he⟩ := confLoop_member_error xs 0 0 s hs hf
    have hne : xs ≠ [] := by
      intro hx
      subst hx
      exact absurd hs (List.not_mem_nil s)
    have htr : pyTruthy (.list xs) = true := by
      cases xs with
      | nil => exact absurd rfl hne
      | cons a as => rfl
    have hg : pyGetD (.dict entries) "segments" (.list []) = .ok (.list xs) := by
      simp [pyGetD, hseg]
    unfold WhisperASR.calculate_confidence WhisperASR.confBody
    simp [hg, htr, pyIter, he]
  · intro v hlast hf
    have hne : xs ≠ [] := by
      intro hx
      subst hx
      simp at hlast
    have htr : pyTruthy (.list xs) = true := by
      cases xs with
      | nil => exact absurd rfl hne
      | cons a as => rfl
    have hg : pyGetD (.dict entries) "segments" (.list []) = .ok (.list xs) := by
      simp [pyGetD, hseg]
    have h2 : pyLast (.list xs) = .ok v := by
      simp [pyLast, hlast]
    rcases hget : pyGetD v "end" (.num 0) with e | w
    · unfold WhisperASR.get_audio_duration WhisperASR.durBody
      simp [hg, htr, h2, hget]
    · rw [hget] at hf
      exact absurd hf (by simp [exceptFails])
  · intro t htext
    have hbody : WhisperASR.transcribeBody device ⟨true, .ok (.dict entries)⟩ p
        = .ok (.dict [
          ("transcription", .str (pyStripStr t)),
          ("language", (entries.lookup "language").getD (.str "unknown")),
          ("confidence", .num (WhisperASR.calculate_confidence (.dict entries))),
          ("segments", (entries.lookup "segments").getD (.list [])),
          ("processing_info", .dict [
            ("model", .str "whisper"),
            ("device", .str device),
            ("audio_duration", WhisperASR.get_audio_duration (.dict entries)),
            ("detected_language",
              (entries.lookup "language").getD (.str "unknown"))])]) := by
      unfold WhisperASR.transcribeBody
      simp only [pyGetD, htext, Option.getD_some, pyStrip]
      rfl
    have hv : WhisperASR.transcribe device ⟨true, .ok (.dict entries)⟩ p
        = .dict [
          ("transcription", .str (pyStripStr t)),
          ("language", (entries.lookup "language").getD (.str "unknown")),
          ("confidence", .num (WhisperASR.calculate_confidence (.dict entries))),
          ("segments", (entries.lookup "segments").getD (.list [])),
          ("processing_info", .dict [
            ("model", .str "whisper"),
            ("device", .str device),
            ("audio_duration", WhisperASR.get_audio_duration (.dict entries)),
            ("detected_language",
              (entries.lookup "language").getD (.str "unknown"))])] := by
      unfold WhisperASR.transcribe
      rw [hbody]
    rw [hv]
    exact ⟨rfl, rfl⟩

/-- Witness for the amended C10 at a single malformed segment entry. -/
theorem C10_witness :
    WhisperASR.calculate_confidence
        (.dict [("segments", .list [.str "bad"]), ("text", .str "hi")]) = 0 :=
  (C10_helper_containment [("segments", .list [.str "bad"]), ("text", .str "hi")]
      [.str "bad"] "cpu" "p" rfl).1
    ⟨.str "bad", List.mem_singleton.mpr rfl, rfl⟩
